import Mathlib

/-!
Verification of the occupancy-ledger core of the hotel occupancy app.

The repository contains two near-identical app variants:
* variant 1 (App.tsx): per-field validation, history keyed by report date
  with an overwrite confirmation;
* variant 2 (src/App.tsx): only a total-rooms check, history keyed by the
  creation timestamp, appended with the add operation of IndexedDB.

Form fields hold raw user-entered strings.  We embed a string by its
observable behaviour under the three operations the code applies to it:
trim-emptiness, Number(s), and parseInt(s).  A plain decimal numeric
string with value q has Number = q and parseInt = truncation of q toward
zero; a scientific-notation numeric string such as 1e1 has Number equal
to the full literal value but parseInt reads only the leading integer
digits of the mantissa, so the two diverge (Number 10, parseInt 1); a
blank string has Number = 0 and parseInt = NaN; a non-numeric string has
Number = NaN and parseInt = NaN.  NaN is modelled as none.
-/

/-- A raw text field value, classified by its observable behaviour under
the string operations the code performs. -/
inductive RawValue
  /-- a string whose trim is empty -/
  | blank
  /-- a plain decimal numeric string with value q -/
  | num (q : ℚ)
  /-- a scientific-notation numeric string: Number reads the whole
  literal as q while parseInt stops at the leading integer digits of the
  mantissa and yields p, so the two values diverge -/
  | sciNum (q : ℚ) (p : ℤ)
  /-- a non-numeric string -/
  | nonNumeric
deriving DecidableEq, Repr

/-- Truncation of a rational toward zero, the value of parseInt on a plain
decimal numeric string. -/
def ratTrunc (q : ℚ) : ℤ :=
  if q < 0 then -(Int.fdiv (-q).num (-q).den) else Int.fdiv q.num q.den

/-- Is the trimmed string empty (value.trim() === '' in the code). -/
def jsTrimBlank : RawValue → Bool
  | .blank => true
  | _ => false

/-- The JS Number(value) conversion; none models NaN. -/
def jsNumber : RawValue → Option ℚ
  | .blank => some 0
  | .num q => some q
  | .sciNum q _ => some q
  | .nonNumeric => none

/-- The JS parseInt(value) conversion; none models NaN. -/
def jsParseInt : RawValue → Option ℤ
  | .blank => none
  | .num q => some (ratTrunc q)
  | .sciNum _ p => some p
  | .nonNumeric => none

/-- The idiom parseInt(v) || 0 used by the results computation. -/
def jsParseIntOr0 (v : RawValue) : ℤ := (jsParseInt v).getD 0

/-- The JS comparison a > b where either side may be NaN (none); any
comparison with NaN is false. -/
def jsGtNum (a b : Option ℚ) : Bool :=
  match a, b with
  | some x, some y => x > y
  | _, _ => false

/-- The four per-section input fields (hab, adultos, ninos, infantes). -/
inductive FieldName
  | hab | adultos | ninos | infantes
deriving DecidableEq, Repr

/-- The five fixed occupancy sections. -/
inductive SectionName
  | amanecimos | entradas | salidas | usoCasa | complementarias
deriving DecidableEq, Repr

/-- All fields, in source order. -/
def allFields : List FieldName := [.hab, .adultos, .ninos, .infantes]

/-- All sections, in source order. -/
def allSections : List SectionName :=
  [.amanecimos, .entradas, .salidas, .usoCasa, .complementarias]

/-- The raw text of one section (OccupancySectionData in types.ts). -/
structure OccupancySectionData where
  hab : RawValue
  adultos : RawValue
  ninos : RawValue
  infantes : RawValue
deriving DecidableEq, Repr

/-- Field lookup on a section record. -/
def OccupancySectionData.get (s : OccupancySectionData) : FieldName → RawValue
  | .hab => s.hab
  | .adultos => s.adultos
  | .ninos => s.ninos
  | .infantes => s.infantes

/-- Functional update of one field of a section record. -/
def OccupancySectionData.set (s : OccupancySectionData) (f : FieldName)
    (v : RawValue) : OccupancySectionData :=
  match f with
  | .hab => { s with hab := v }
  | .adultos => { s with adultos := v }
  | .ninos => { s with ninos := v }
  | .infantes => { s with infantes := v }

/-- The live form state of the app: total rooms, executive name, report
date and the per-section data (the LedgerState of the spec). -/
structure AppFormState where
  totalHab : RawValue
  ejecutivoGuardia : String
  reportDate : String
  data : SectionName → OccupancySectionData

/-- The section with all four fields set to the string 0, used by the
initial state and by section reset in both variants. -/
def zeroSection : OccupancySectionData :=
  { hab := .num 0, adultos := .num 0, ninos := .num 0, infantes := .num 0 }

/-- handleDataChange: replace one field of one section, leaving the rest
of the state untouched (a fresh record is produced, nothing is mutated). -/
def handleDataChange (st : AppFormState) (c : SectionName) (f : FieldName)
    (v : RawValue) : AppFormState :=
  { st with data := fun c2 => if c2 = c then (st.data c).set f v else st.data c2 }

/-- handleResetSection: set the four fields of one section to 0. -/
def handleResetSection (st : AppFormState) (c : SectionName) : AppFormState :=
  { st with data := fun c2 => if c2 = c then zeroSection else st.data c2 }

/-- Variant 1 per-field validation, rules in source order: blank, then
non-numeric, then non-integer, then negative; empty string means no
error. -/
def fieldError (v : RawValue) : String :=
  if jsTrimBlank v then "Requerido."
  else
    match jsNumber v with
    | none => "Inválido."
    | some q =>
      if q.den ≠ 1 then "Debe ser entero."
      else if q < 0 then "No negativo."
      else ""

/-- Variant 1 total-rooms validation: NaN or blank, then non-integer,
then non-positive. -/
def totalHabError (v : RawValue) : String :=
  match jsNumber v with
  | none => "Debe ser un número."
  | some q =>
    if jsTrimBlank v then "Debe ser un número."
    else if q.den ≠ 1 then "Debe ser un número entero."
    else if q ≤ 0 then "Debe ser mayor que 0."
    else ""

/-- The cross-field message placed on a salidas field. -/
def crossMsg : FieldName → String
  | .hab => "No puede exceder amanecidas."
  | _ => "No puede exceder amanecidos."

/-- Variant 1 final per-field error map: the rule 1-4 error, and on a
salidas field additionally the cross-field message when salidas exceeds
amanecimos under the Number conversion and no earlier error is present. -/
def errData (st : AppFormState) (c : SectionName) (f : FieldName) : String :=
  if c = .salidas ∧ fieldError ((st.data c).get f) = "" ∧
      jsGtNum (jsNumber ((st.data .salidas).get f))
        (jsNumber ((st.data .amanecimos).get f)) then
    crossMsg f
  else fieldError ((st.data c).get f)

/-- Variant 1 isFormInvalid: the total-rooms error is non-empty or some
per-field error is non-empty. -/
def isFormInvalid (st : AppFormState) : Bool :=
  totalHabError st.totalHab ≠ "" ||
    allSections.any fun c => allFields.any fun f => errData st c f ≠ ""

/-- The parsed (parseInt(v) || 0) integer of one field of one section. -/
def parsedVal (st : AppFormState) (c : SectionName) (f : FieldName) : ℤ :=
  jsParseIntOr0 ((st.data c).get f)

/-- The closing arithmetic of the results computation for one field:
amanecimos minus salidas plus entradas plus usoCasa plus
complementarias. -/
def cierreOf (d : SectionName → FieldName → ℤ) (f : FieldName) : ℤ :=
  d .amanecimos f - d .salidas f + d .entradas f + d .usoCasa f +
    d .complementarias f

/-- Exact product of two rationals, written through Rat.divInt so the
kernel can evaluate it. -/
def ratMul (a b : ℚ) : ℚ := Rat.divInt (a.num * b.num) ((a.den : ℤ) * b.den)

/-- Exact sum of two rationals, written through Rat.divInt so the kernel
can evaluate it. -/
def ratAdd (a b : ℚ) : ℚ :=
  Rat.divInt (a.num * b.den + b.num * a.den) ((a.den : ℤ) * b.den)

/-- Exact quotient of two rationals, written through Rat.divInt so the
kernel can evaluate it. -/
def ratDiv (a b : ℚ) : ℚ := Rat.divInt (a.num * b.den) ((a.den : ℤ) * b.num)

/-- Floor of a rational, computed with floor division of integers (the
denominator of a Rat is always positive). -/
def ratFloor (q : ℚ) : ℤ := Int.fdiv q.num q.den

/-- The value of (q).toFixed(2) as an integer count of hundredths:
rounding to the nearest hundredth, half up. -/
def round2 (q : ℚ) : ℤ := ratFloor (ratAdd (ratMul q 100) (mkRat 1 2))

/-- The decimal digit character for d (d below 10). -/
def digitChar (d : Nat) : Char := Char.ofNat (48 + d)

/-- Decimal digits of n, most significant first, by structural recursion
on a fuel argument (fuel at least n suffices since n / 10 < n). -/
def natDigitsAux : Nat → Nat → List Char
  | 0, _ => []
  | fuel + 1, n =>
    if n = 0 then [] else natDigitsAux fuel (n / 10) ++ [digitChar (n % 10)]

/-- Decimal rendering of a natural number. -/
def natStr (n : Nat) : String := if n = 0 then "0" else ⟨natDigitsAux n n⟩

/-- Render a count of hundredths the way toFixed(2) renders a number,
with a trailing percent sign. -/
def fixed2String (c : ℤ) : String :=
  let a := c.natAbs
  let whole := a / 100
  let frac := a % 100
  (if c < 0 then "-" else "") ++ natStr whole ++ "." ++
    (if frac < 10 then "0" else "") ++ natStr frac ++ "%"

/-- The derived closing snapshot (CalculatedResults in types.ts). -/
structure CalculatedResults where
  cierreHab : ℤ
  cierreAdultos : ℤ
  cierreNinos : ℤ
  cierreInfantes : ℤ
  cierrePaxTotal : ℤ
  occupancyPercentage : String
deriving DecidableEq, Repr

/-- The all-zero snapshot variant 1 returns while the form is invalid. -/
def zeroResults : CalculatedResults :=
  { cierreHab := 0, cierreAdultos := 0, cierreNinos := 0,
    cierreInfantes := 0, cierrePaxTotal := 0, occupancyPercentage := "0.00%" }

/-- Variant 1 results: the zero snapshot when the form is invalid,
otherwise the closing arithmetic over parseInt(v) || 0 together with the
occupancy percentage over parseInt(totalHab) || 1. -/
def results (st : AppFormState) : CalculatedResults :=
  if isFormInvalid st then zeroResults
  else
    let d := parsedVal st
    let cHab := cierreOf d .hab
    let cAdultos := cierreOf d .adultos
    let cNinos := cierreOf d .ninos
    let cInfantes := cierreOf d .infantes
    let denom : ℤ :=
      match jsParseInt st.totalHab with
      | none => 1
      | some n => if n = 0 then 1 else n
    let occupancy : ℚ := ratMul (ratDiv (cHab : ℚ) (denom : ℚ)) 100
    { cierreHab := cHab, cierreAdultos := cAdultos, cierreNinos := cNinos,
      cierreInfantes := cInfantes,
      cierrePaxTotal := cAdultos + cNinos + cInfantes,
      occupancyPercentage := fixed2String (round2 occupancy) }

/-- Variant 2 total-rooms check: parseInt(totalHab) is NaN or at most 0. -/
def totalHabError2 (v : RawValue) : String :=
  match jsParseInt v with
  | none => "Debe ser un número mayor que 0."
  | some n => if n ≤ 0 then "Debe ser un número mayor que 0." else ""

/-- Variant 2 results: no per-field gate; the closing arithmetic always
runs over parseInt(v) || 0, and only the occupancy is zeroed when the
total-rooms check fails. -/
def results2 (st : AppFormState) : CalculatedResults :=
  let d := parsedVal st
  let cHab := cierreOf d .hab
  let cAdultos := cierreOf d .adultos
  let cNinos := cierreOf d .ninos
  let cInfantes := cierreOf d .infantes
  let denom : ℤ :=
    match jsParseInt st.totalHab with
    | none => 1
    | some n => if n = 0 then 1 else n
  let occupancy : ℚ :=
    if totalHabError2 st.totalHab ≠ "" then 0
    else ratMul (ratDiv (cHab : ℚ) (denom : ℚ)) 100
  { cierreHab := cHab, cierreAdultos := cAdultos, cierreNinos := cNinos,
    cierreInfantes := cInfantes,
    cierrePaxTotal := cAdultos + cNinos + cInfantes,
    occupancyPercentage := fixed2String (round2 occupancy) }

/-- Variant 1 persisted history record (HistoricalReport in types.ts);
its id is the report date string. -/
structure HistoricalReport where
  id : String
  reportDate : String
  totalHab : RawValue
  ejecutivoGuardia : String
  data : SectionName → OccupancySectionData
  analysis : String
  results : CalculatedResults
  createdAt : ℤ

/-- Variant 1 report construction inside handleSaveReport: the record is
built from the current state values; its id is the report date. -/
def buildReport (st : AppFormState) (analysis : String) (now : ℤ) :
    HistoricalReport :=
  { id := st.reportDate, reportDate := st.reportDate,
    totalHab := st.totalHab, ejecutivoGuardia := st.ejecutivoGuardia,
    data := st.data, analysis := analysis, results := results st,
    createdAt := now }

/-- The put operation of a keyPath-id IndexedDB object store: insert or
replace the record with the same id. -/
def idbPut (store : List HistoricalReport) (r : HistoricalReport) :
    List HistoricalReport :=
  r :: store.filter fun x => x.id ≠ r.id

/-- Variant 1 handleSaveReport: when a report with the same report-date id
already exists the user is asked to confirm; on decline the save is
abandoned (none), otherwise the report is put into the store. -/
def handleSaveReport (store : List HistoricalReport) (st : AppFormState)
    (analysis : String) (now : ℤ) (confirmOverwrite : Bool) :
    Option (List HistoricalReport) :=
  if (store.any fun r => r.id = st.reportDate) && !confirmOverwrite then none
  else some (idbPut store (buildReport st analysis now))

/-- Variant 2 persisted history record (HistoryEntry in src/types.ts);
its id is the creation timestamp Date.now(). -/
structure HistoryEntry where
  id : ℤ
  date : String
  occupancyPercentage : String
  cierrePaxTotal : ℤ
  cierreHab : ℤ
  stateTotalHab : RawValue
  stateEjecutivoGuardia : String
  stateReportDate : String
  stateData : SectionName → OccupancySectionData

/-- Variant 2 entry construction inside saveCurrentCalculationToHistory:
the id is Date.now() and the full state is captured alongside the
computed results. -/
def buildHistoryEntry (st : AppFormState) (now : ℤ) : HistoryEntry :=
  { id := now, date := st.reportDate,
    occupancyPercentage := (results2 st).occupancyPercentage,
    cierrePaxTotal := (results2 st).cierrePaxTotal,
    cierreHab := (results2 st).cierreHab,
    stateTotalHab := st.totalHab,
    stateEjecutivoGuardia := st.ejecutivoGuardia,
    stateReportDate := st.reportDate, stateData := st.data }

/-- The add operation of a keyPath-id IndexedDB object store, used by
variant 2 saveHistory: it fails with a ConstraintError when a record
with the same id already exists, and inserts otherwise. -/
def idbAdd (store : List HistoryEntry) (e : HistoryEntry) :
    Except String (List HistoryEntry) :=
  if store.any fun x => x.id = e.id then .error "ConstraintError"
  else .ok (e :: store)

/-- The delete operation of an IndexedDB object store: it removes the
record with the given id and succeeds even when no such record exists. -/
def idbDelete (store : List HistoryEntry) (id : ℤ) : List HistoryEntry :=
  store.filter fun e => e.id ≠ id

/-- The kinds of transient toast notification. -/
inductive ToastType
  | success | error | info
deriving DecidableEq, Repr

/-- Variant 2 handleDeleteHistory on the success path: the store delete
request succeeds (also for an absent id), the in-memory list is filtered,
and a success toast is shown. -/
def handleDeleteHistory (store : List HistoryEntry)
    (history : List HistoryEntry) (id : ℤ) :
    List HistoryEntry × List HistoryEntry × ToastType :=
  (idbDelete store id, history.filter fun e => e.id ≠ id, .success)

/-- Does the raw value parse as an integer: Number(v) is a rational with
denominator one. -/
def parsesAsInt (v : RawValue) : Bool :=
  match jsNumber v with
  | some q => q.den = 1
  | none => false

/-- Build the per-section data map from the five section records, in
source order. -/
def mkData (am en sa uc co : OccupancySectionData) :
    SectionName → OccupancySectionData
  | .amanecimos => am
  | .entradas => en
  | .salidas => sa
  | .usoCasa => uc
  | .complementarias => co

/-- The concrete scenario of the spec: totalRooms 148, WokeUp
100/150/20/5, CheckOuts 30/40/5/1, CheckIns 25/35/3/0, HouseUse and
Complementary zero. -/
def scenarioState : AppFormState :=
  { totalHab := .num 148, ejecutivoGuardia := "", reportDate := "2026-10-11",
    data := mkData
      { hab := .num 100, adultos := .num 150, ninos := .num 20, infantes := .num 5 }
      { hab := .num 25, adultos := .num 35, ninos := .num 3, infantes := .num 0 }
      { hab := .num 30, adultos := .num 40, ninos := .num 5, infantes := .num 1 }
      zeroSection zeroSection }

/-- A state whose fields all parse as integers but where a checkout
exceeds the overnight baseline: salidas.hab is 1 while amanecimos.hab
is 0. -/
def cexCrossState : AppFormState :=
  { totalHab := .num 148, ejecutivoGuardia := "", reportDate := "2026-10-11",
    data := mkData zeroSection zeroSection
      { hab := .num 1, adultos := .num 0, ninos := .num 0, infantes := .num 0 }
      zeroSection zeroSection }

/-- A state with the non-integer total-rooms text 1.5 and one occupied
room. -/
def cexHalfState : AppFormState :=
  { totalHab := .num (mkRat 3 2), ejecutivoGuardia := "", reportDate := "2026-10-11",
    data := mkData
      { hab := .num 1, adultos := .num 0, ninos := .num 0, infantes := .num 0 }
      zeroSection zeroSection zeroSection zeroSection }

/-- A state with total-rooms text 0 and arbitrary-looking other fields. -/
def zeroTotalState : AppFormState :=
  { totalHab := .num 0, ejecutivoGuardia := "", reportDate := "2026-10-11",
    data := mkData
      { hab := .num 7, adultos := .num 9, ninos := .num 2, infantes := .num 1 }
      zeroSection zeroSection zeroSection zeroSection }

/-- Every section is in the section list. -/
theorem mem_allSections (c : SectionName) : c ∈ allSections := by
  cases c <;> simp [allSections]

/-- Every field is in the field list. -/
theorem mem_allFields (f : FieldName) : f ∈ allFields := by
  cases f <;> simp [allFields]

/-- A valid form has an empty total-rooms error and empty per-field
errors everywhere. -/
theorem errors_empty_of_not_invalid (st : AppFormState)
    (h : isFormInvalid st = false) :
    totalHabError st.totalHab = "" ∧ ∀ c f, errData st c f = "" := by
  simp only [isFormInvalid, Bool.or_eq_false_iff, decide_eq_false_iff_not,
    not_not, List.any_eq_false] at h
  refine ⟨h.1, fun c f => ?_⟩
  have hc := h.2 c (mem_allSections c)
  simp only [Bool.not_eq_true, List.any_eq_false, decide_eq_false_iff_not,
    not_not] at hc
  exact hc f (mem_allFields f)

/-- In the valid branch, the results record is the closing arithmetic
over the parsed values. -/
theorem results_of_valid (st : AppFormState) (h : isFormInvalid st = false) :
    results st =
      { cierreHab := cierreOf (parsedVal st) .hab,
        cierreAdultos := cierreOf (parsedVal st) .adultos,
        cierreNinos := cierreOf (parsedVal st) .ninos,
        cierreInfantes := cierreOf (parsedVal st) .infantes,
        cierrePaxTotal := cierreOf (parsedVal st) .adultos +
          cierreOf (parsedVal st) .ninos + cierreOf (parsedVal st) .infantes,
        occupancyPercentage := fixed2String (round2 (ratMul
          (ratDiv ((cierreOf (parsedVal st) .hab : ℤ) : ℚ)
            ((match jsParseInt st.totalHab with
              | none => 1
              | some n => if n = 0 then 1 else n : ℤ) : ℚ)) 100)) } := by
  simp only [results, h, Bool.false_eq_true, if_false]

/-- The cross-field message is never the empty string. -/
theorem crossMsg_ne_empty (f : FieldName) : crossMsg f ≠ "" := by
  cases f <;> decide

/-- A field passes rules 1-4 exactly when its value is a non-blank
numeric string holding a non-negative integer. -/
theorem fieldError_empty_iff (v : RawValue) :
    fieldError v = "" ↔
      ∃ q : ℚ, jsNumber v = some q ∧ jsTrimBlank v = false ∧
        q.den = 1 ∧ 0 ≤ q := by
  cases v with
  | blank => simp [fieldError, jsTrimBlank, jsNumber]
  | nonNumeric => simp [fieldError, jsTrimBlank, jsNumber]
  | num q =>
    constructor
    · intro h
      simp only [fieldError, jsTrimBlank, jsNumber, Bool.false_eq_true,
        if_false] at h
      split_ifs at h with h1 h2
      · exact absurd h (by decide)
      · exact absurd h (by decide)
      · exact ⟨q, rfl, rfl, not_not.mp h1, not_lt.mp h2⟩
    · rintro ⟨q2, hq, hblank, hden, hle⟩
      simp only [jsNumber, Option.some.injEq] at hq
      subst hq
      simp [fieldError, jsTrimBlank, jsNumber, hden, not_lt.mpr, hle,
        not_lt_of_le hle]
  | sciNum q p =>
    constructor
    · intro h
      simp only [fieldError, jsTrimBlank, jsNumber, Bool.false_eq_true,
        if_false] at h
      split_ifs at h with h1 h2
      · exact absurd h (by decide)
      · exact absurd h (by decide)
      · exact ⟨q, rfl, rfl, not_not.mp h1, not_lt.mp h2⟩
    · rintro ⟨q2, hq, hblank, hden, hle⟩
      simp only [jsNumber, Option.some.injEq] at hq
      subst hq
      simp [fieldError, jsTrimBlank, jsNumber, hden, not_lt.mpr, hle,
        not_lt_of_le hle]

/-- Truncation of an integer-valued rational is its numerator. -/
theorem ratTrunc_int (q : ℚ) (h : q.den = 1) : ratTrunc q = q.num := by
  unfold ratTrunc
  split_ifs with hneg
  · rw [Rat.neg_num, Rat.neg_den, h]
    simp [Int.fdiv_one]
  · rw [h]
    simp [Int.fdiv_one]

/-- On a plain decimal integer string, parseInt and Number agree. -/
theorem num_int_agrees (q : ℚ) (h : q.den = 1) :
    ∃ n : ℤ, jsParseInt (.num q) = some n ∧
      jsNumber (.num q) = some ((n : ℤ) : ℚ) := by
  refine ⟨q.num, ?_, ?_⟩
  · simp [jsParseInt, ratTrunc_int q h]
  · simp [jsNumber, Rat.coe_int_num_of_den_eq_one h]

/-- An empty final error on a field means its rule 1-4 error is empty. -/
theorem fieldError_of_errData_empty (st : AppFormState) (c : SectionName)
    (f : FieldName) (h : errData st c f = "") :
    fieldError ((st.data c).get f) = "" := by
  unfold errData at h
  split_ifs at h with hc
  · exact absurd h (crossMsg_ne_empty f)
  · exact h

/-- An empty final error on a salidas field additionally means the
Number comparison salidas greater than amanecimos is false. -/
theorem not_gt_of_errData_salidas_empty (st : AppFormState) (f : FieldName)
    (h : errData st .salidas f = "") :
    jsGtNum (jsNumber ((st.data .salidas).get f))
      (jsNumber ((st.data .amanecimos).get f)) = false := by
  have hbase := fieldError_of_errData_empty st .salidas f h
  unfold errData at h
  split_ifs at h with hc
  · exact absurd h (crossMsg_ne_empty f)
  · by_cases hgt : jsGtNum (jsNumber ((st.data .salidas).get f))
        (jsNumber ((st.data .amanecimos).get f)) = true
    · exact absurd ⟨rfl, h, hgt⟩ hc
    · simpa using hgt

/-- An invalid form yields the all-zero snapshot. -/
theorem results_of_invalid (st : AppFormState) (h : isFormInvalid st = true) :
    results st = zeroResults := by
  simp [results, h]

/-- A non-empty total-rooms error makes the form invalid. -/
theorem invalid_of_totalHabError (st : AppFormState)
    (h : totalHabError st.totalHab ≠ "") : isFormInvalid st = true := by
  simp [isFormInvalid, h]

/-- A blank, non-numeric, non-integer or non-positive total-rooms value
has a non-empty variant 1 total-rooms error. -/
theorem totalHabError_ne_empty (v : RawValue)
    (h : v = .blank ∨ jsNumber v = none ∨
      ∃ q, jsNumber v = some q ∧ (q.den ≠ 1 ∨ q ≤ 0)) :
    totalHabError v ≠ "" := by
  cases v with
  | blank => decide
  | nonNumeric => decide
  | num q =>
    rcases h with h | h | ⟨q2, hq, hbad⟩
    · cases h
    · simp [jsNumber] at h
    · have hq2 : q = q2 := by simpa [jsNumber] using hq
      subst hq2
      rcases hbad with hd | hle
      · have hmsg : totalHabError (.num q) = "Debe ser un número entero." := by
          simp [totalHabError, jsNumber, jsTrimBlank, hd]
        rw [hmsg]; decide
      · by_cases hden : q.den = 1
        · have hmsg : totalHabError (.num q) = "Debe ser mayor que 0." := by
            simp [totalHabError, jsNumber, jsTrimBlank, hden, hle]
          rw [hmsg]; decide
        · have hmsg : totalHabError (.num q) = "Debe ser un número entero." := by
            simp [totalHabError, jsNumber, jsTrimBlank, hden]
          rw [hmsg]; decide
  | sciNum q p =>
    rcases h with h | h | ⟨q2, hq, hbad⟩
    · cases h
    · simp [jsNumber] at h
    · have hq2 : q = q2 := by simpa [jsNumber] using hq
      subst hq2
      rcases hbad with hd | hle
      · have hmsg : totalHabError (.sciNum q p) =
            "Debe ser un número entero." := by
          simp [totalHabError, jsNumber, jsTrimBlank, hd]
        rw [hmsg]; decide
      · by_cases hden : q.den = 1
        · have hmsg : totalHabError (.sciNum q p) =
              "Debe ser mayor que 0." := by
            simp [totalHabError, jsNumber, jsTrimBlank, hden, hle]
          rw [hmsg]; decide
        · have hmsg : totalHabError (.sciNum q p) =
              "Debe ser un número entero." := by
            simp [totalHabError, jsNumber, jsTrimBlank, hden]
          rw [hmsg]; decide

/-- A parseInt-NaN or non-positive-parseInt total-rooms value has a
non-empty variant 2 total-rooms error. -/
theorem totalHabError2_ne_empty (v : RawValue)
    (h : jsParseInt v = none ∨ ∃ n, jsParseInt v = some n ∧ n ≤ 0) :
    totalHabError2 v ≠ "" := by
  unfold totalHabError2
  rcases h with h | ⟨n, hn, hle⟩
  · rw [h]; decide
  · rw [hn]
    simp only [hle, if_true]
    decide

/-- Rendering the zero occupancy gives the string 0.00 percent. -/
theorem fixed2String_round2_zero : fixed2String (round2 0) = "0.00%" := by
  decide

/-- Variant 2 zeroes the occupancy string when its total-rooms check
fails. -/
theorem results2_occupancy_of_error (st : AppFormState)
    (h : totalHabError2 st.totalHab ≠ "") :
    (results2 st).occupancyPercentage = "0.00%" := by
  simp only [results2]
  rw [if_pos h]
  exact fixed2String_round2_zero

/-- C1: the claim as stated is false on the code: in cexCrossState every
category field parses as an integer, yet the closing computation returns
0 for rooms while WokeUp minus CheckOuts plus CheckIns plus HouseUse plus
Complementary gives -1, because the checkout-exceeds-overnight validation
error zeroes the whole snapshot. -/
theorem C1_counterexample :
    (allSections.all fun c => allFields.all fun f =>
      parsesAsInt ((cexCrossState.data c).get f)) = true ∧
    (results cexCrossState).cierreHab = 0 ∧
    cierreOf (parsedVal cexCrossState) .hab = -1 := by
  decide

/-- C1 (amended): for every LedgerState that passes validation (so in
particular whose category fields parse as non-negative integers with
checkouts at most the overnight counts and a positive integer total), the
closing computation returns, for each of the four fields, WokeUp minus
CheckOuts plus CheckIns plus HouseUse plus Complementary, the guests
total equals adults plus children plus infants, and the per-field sum is
order-independent across the added categories; on the concrete scenario
(totalRooms 148, WokeUp 100/150/20/5, CheckOuts 30/40/5/1, CheckIns
25/35/3/0, HouseUse and Complementary zero) it returns 95, 145, 18, 4,
167 and occupancy 64.19 percent. -/
theorem C1_closing_formula :
    (∀ st : AppFormState, isFormInvalid st = false →
      ((results st).cierreHab = cierreOf (parsedVal st) .hab ∧
        (results st).cierreAdultos = cierreOf (parsedVal st) .adultos ∧
        (results st).cierreNinos = cierreOf (parsedVal st) .ninos ∧
        (results st).cierreInfantes = cierreOf (parsedVal st) .infantes ∧
        (results st).cierrePaxTotal = (results st).cierreAdultos +
          (results st).cierreNinos + (results st).cierreInfantes) ∧
      ∀ (f : FieldName) (l : List ℤ),
        l.Perm [parsedVal st .amanecimos f, parsedVal st .entradas f,
          parsedVal st .usoCasa f, parsedVal st .complementarias f] →
        cierreOf (parsedVal st) f = l.sum - parsedVal st .salidas f) ∧
    results scenarioState =
      { cierreHab := 95, cierreAdultos := 145, cierreNinos := 18,
        cierreInfantes := 4, cierrePaxTotal := 167,
        occupancyPercentage := "64.19%" } := by
  refine ⟨fun st h => ⟨?_, ?_⟩, by decide⟩
  · rw [results_of_valid st h]
    exact ⟨rfl, rfl, rfl, rfl, rfl⟩
  · intro f l hl
    have hs := hl.sum_eq
    simp only [List.sum_cons, List.sum_nil, add_zero] at hs
    rw [hs, cierreOf]
    ring

/-- C1 witness: the amended theorem applied to the concrete scenario
state, where validation passes. -/
theorem C1_closing_formula_witness :
    isFormInvalid scenarioState = false ∧
    (results scenarioState).cierreHab =
      cierreOf (parsedVal scenarioState) .hab ∧
    cierreOf (parsedVal scenarioState) .hab =
      [parsedVal scenarioState .amanecimos .hab,
        parsedVal scenarioState .entradas .hab,
        parsedVal scenarioState .usoCasa .hab,
        parsedVal scenarioState .complementarias .hab].sum -
        parsedVal scenarioState .salidas .hab :=
  ⟨by decide, ((C1_closing_formula.1 scenarioState (by decide)).1).1,
    (C1_closing_formula.1 scenarioState (by decide)).2 .hab _ (List.Perm.refl _)⟩

/-- C2: the claim as stated is false on the second variant: the
non-integer total-rooms text 1.5 is truncated by parseInt to 1 and used
as the denominator, so with one occupied room the occupancy string is
100.00 percent, not 0.00 percent. -/
theorem C2_counterexample :
    jsNumber cexHalfState.totalHab = some (mkRat 3 2) ∧
    (mkRat 3 2).den ≠ 1 ∧
    (results2 cexHalfState).occupancyPercentage = "100.00%" := by
  decide

/-- C2 (amended): in the validating variant, a blank, non-numeric,
non-integer or non-positive totalRooms forces the occupancy percentage
string to 0.00 percent; in the newer variant this holds exactly when
parseInt of totalRooms is NaN or at most 0; totalRooms 0 yields 0.00
percent in both variants regardless of the other fields. -/
theorem C2_occupancy_guard :
    (∀ st : AppFormState,
      (st.totalHab = .blank ∨ jsNumber st.totalHab = none ∨
        ∃ q, jsNumber st.totalHab = some q ∧ (q.den ≠ 1 ∨ q ≤ 0)) →
      (results st).occupancyPercentage = "0.00%") ∧
    (∀ st : AppFormState,
      (jsParseInt st.totalHab = none ∨
        ∃ n, jsParseInt st.totalHab = some n ∧ n ≤ 0) →
      (results2 st).occupancyPercentage = "0.00%") ∧
    (∀ st : AppFormState, st.totalHab = .num 0 →
      (results st).occupancyPercentage = "0.00%" ∧
      (results2 st).occupancyPercentage = "0.00%") := by
  have h1 : ∀ st : AppFormState,
      (st.totalHab = .blank ∨ jsNumber st.totalHab = none ∨
        ∃ q, jsNumber st.totalHab = some q ∧ (q.den ≠ 1 ∨ q ≤ 0)) →
      (results st).occupancyPercentage = "0.00%" := by
    intro st h
    rw [results_of_invalid st
      (invalid_of_totalHabError st (totalHabError_ne_empty _ h))]
    rfl
  have h2 : ∀ st : AppFormState,
      (jsParseInt st.totalHab = none ∨
        ∃ n, jsParseInt st.totalHab = some n ∧ n ≤ 0) →
      (results2 st).occupancyPercentage = "0.00%" := by
    intro st h
    exact results2_occupancy_of_error st (totalHabError2_ne_empty _ h)
  refine ⟨h1, h2, fun st h => ⟨?_, ?_⟩⟩
  · exact h1 st (Or.inr (Or.inr ⟨0, by rw [h]; rfl, Or.inr le_rfl⟩))
  · refine h2 st (Or.inr ⟨0, ?_, le_rfl⟩)
    rw [h]
    decide

/-- C2 witness: both variants report the zero occupancy string on a state
whose total-rooms text is 0 but whose fields are non-trivial. -/
theorem C2_occupancy_guard_witness :
    (results zeroTotalState).occupancyPercentage = "0.00%" ∧
    (results2 zeroTotalState).occupancyPercentage = "0.00%" :=
  C2_occupancy_guard.2.2 zeroTotalState rfl

/-- No rule 1-4 message coincides with a cross-field message. -/
theorem fieldError_ne_crossMsg (v : RawValue) (f : FieldName) :
    fieldError v ≠ crossMsg f := by
  cases v with
  | blank => cases f <;> decide
  | nonNumeric => cases f <;> decide
  | num q =>
    simp only [fieldError, jsTrimBlank, jsNumber, Bool.false_eq_true,
      if_false]
    split_ifs <;> cases f <;> decide
  | sciNum q p =>
    simp only [fieldError, jsTrimBlank, jsNumber, Bool.false_eq_true,
      if_false]
    split_ifs <;> cases f <;> decide

/-- The JS greater-than test holds exactly when both sides are numeric
and the first exceeds the second. -/
theorem jsGtNum_eq_true_iff (a b : Option ℚ) :
    jsGtNum a b = true ↔ ∃ x y, a = some x ∧ b = some y ∧ y < x := by
  cases a <;> cases b <;> simp [jsGtNum]

/-- A form is valid exactly when the total-rooms error and every
per-field error are empty. -/
theorem isFormInvalid_eq_false_iff (st : AppFormState) :
    isFormInvalid st = false ↔
      totalHabError st.totalHab = "" ∧ ∀ c f, errData st c f = "" := by
  constructor
  · exact errors_empty_of_not_invalid st
  · rintro ⟨h1, h2⟩
    simp [isFormInvalid, h1, List.any_eq_false, h2]

/-- C3: a checkout field is flagged iff one of rules 1-4 applies to it or
its Number value exceeds the overnight Number value; the cross-field
message is set only when no rule 1-4 error is already present on the
field; and a checkout field that passes rules 1-4 and does not exceed
the overnight count carries no flag. -/
theorem C3_checkout_cross_field :
    ∀ (st : AppFormState) (f : FieldName),
      (errData st .salidas f ≠ "" ↔
        fieldError ((st.data .salidas).get f) ≠ "" ∨
        jsGtNum (jsNumber ((st.data .salidas).get f))
          (jsNumber ((st.data .amanecimos).get f)) = true) ∧
      (errData st .salidas f = crossMsg f →
        fieldError ((st.data .salidas).get f) = "") ∧
      ((∀ qs qw, jsNumber ((st.data .salidas).get f) = some qs →
          jsNumber ((st.data .amanecimos).get f) = some qw → qs ≤ qw) →
        fieldError ((st.data .salidas).get f) = "" →
        errData st .salidas f = "") := by
  intro st f
  refine ⟨?_, ?_, ?_⟩
  · unfold errData
    by_cases hbase : fieldError ((st.data .salidas).get f) = ""
    · by_cases hg : jsGtNum (jsNumber ((st.data .salidas).get f))
          (jsNumber ((st.data .amanecimos).get f)) = true
      · rw [if_pos ⟨rfl, hbase, hg⟩]
        simp [crossMsg_ne_empty f, hg]
      · rw [if_neg fun hcond => hg hcond.2.2]
        simp [hbase, hg]
    · rw [if_neg fun hcond => hbase hcond.2.1]
      simp [hbase]
  · intro h
    by_contra hbase
    unfold errData at h
    rw [if_neg fun hcond => hbase hcond.2.1] at h
    exact fieldError_ne_crossMsg _ f h
  · intro hle hbase
    unfold errData
    rw [if_neg]
    · exact hbase
    · rintro ⟨-, -, hg⟩
      obtain ⟨qs, qw, hqs, hqw, hlt⟩ := (jsGtNum_eq_true_iff _ _).mp hg
      exact absurd (hle qs qw hqs hqw) (not_le_of_lt hlt)

/-- C3 witness: in the concrete scenario the checkout rooms field (30 at
most 100, rules 1-4 passing) carries no flag. -/
theorem C3_checkout_cross_field_witness :
    errData scenarioState .salidas .hab = "" := by
  refine (C3_checkout_cross_field scenarioState .hab).2.2 ?_ (by decide)
  intro qs qw hqs hqw
  have h1 : (30 : ℚ) = qs := Option.some.inj hqs
  have h2 : (100 : ℚ) = qw := Option.some.inj hqw
  rw [← h1, ← h2]
  norm_num

/-- C4: isFormInvalid is true iff the total-rooms error is non-empty or
some per-field error is non-empty, and an invalid form forces every
closing field to zero and the occupancy string to 0.00 percent. -/
theorem C4_invalid_gate :
    ∀ st : AppFormState,
      (isFormInvalid st = true ↔
        totalHabError st.totalHab ≠ "" ∨ ∃ c f, errData st c f ≠ "") ∧
      (isFormInvalid st = true →
        results st =
          { cierreHab := 0, cierreAdultos := 0, cierreNinos := 0,
            cierreInfantes := 0, cierrePaxTotal := 0,
            occupancyPercentage := "0.00%" }) := by
  intro st
  refine ⟨⟨?_, ?_⟩, fun h => results_of_invalid st h⟩
  · intro h
    by_contra hn
    push_neg at hn
    have h0 : isFormInvalid st = false :=
      (isFormInvalid_eq_false_iff st).mpr ⟨hn.1, hn.2⟩
    rw [h] at h0
    exact Bool.noConfusion h0
  · rintro (h | ⟨c, f, h⟩)
    · exact invalid_of_totalHabError st h
    · unfold isFormInvalid
      simp only [Bool.or_eq_true, decide_eq_true_eq, List.any_eq_true]
      exact Or.inr ⟨c, mem_allSections c, f, mem_allFields f, h⟩

/-- C4 witness: the cross-field counterexample state is invalid and its
snapshot is forced to all zeros. -/
theorem C4_invalid_gate_witness :
    isFormInvalid cexCrossState = true ∧
    results cexCrossState =
      { cierreHab := 0, cierreAdultos := 0, cierreNinos := 0,
        cierreInfantes := 0, cierrePaxTotal := 0,
        occupancyPercentage := "0.00%" } :=
  ⟨by decide, (C4_invalid_gate cexCrossState).2 (by decide)⟩

/-- C5: validation assigns exactly the first applicable message in
priority order per field (blank, non-numeric, non-integer, negative) and
for the total-rooms value (blank or non-numeric, non-integer,
non-positive), and the messages are pairwise distinct. -/
theorem C5_validation_priority :
    fieldError .blank = "Requerido." ∧
    fieldError .nonNumeric = "Inválido." ∧
    (∀ q : ℚ, q.den ≠ 1 → fieldError (.num q) = "Debe ser entero.") ∧
    (∀ q : ℚ, q.den = 1 → q < 0 → fieldError (.num q) = "No negativo.") ∧
    (∀ q : ℚ, q.den = 1 → 0 ≤ q → fieldError (.num q) = "") ∧
    totalHabError .blank = "Debe ser un número." ∧
    totalHabError .nonNumeric = "Debe ser un número." ∧
    (∀ q : ℚ, q.den ≠ 1 →
      totalHabError (.num q) = "Debe ser un número entero.") ∧
    (∀ q : ℚ, q.den = 1 → q ≤ 0 →
      totalHabError (.num q) = "Debe ser mayor que 0.") ∧
    (∀ q : ℚ, q.den = 1 → 0 < q → totalHabError (.num q) = "") ∧
    ["Requerido.", "Inválido.", "Debe ser entero.", "No negativo.",
      "Debe ser un número.", "Debe ser un número entero.",
      "Debe ser mayor que 0."].Pairwise (· ≠ ·) := by
  refine ⟨by decide, by decide, ?_, ?_, ?_, by decide, by decide, ?_, ?_, ?_,
    by decide⟩
  · intro q h
    simp [fieldError, jsTrimBlank, jsNumber, h]
  · intro q h1 h2
    simp [fieldError, jsTrimBlank, jsNumber, h1, h2]
  · intro q h1 h2
    simp [fieldError, jsTrimBlank, jsNumber, h1, not_lt_of_le h2]
  · intro q h
    simp [totalHabError, jsTrimBlank, jsNumber, h]
  · intro q h1 h2
    simp [totalHabError, jsTrimBlank, jsNumber, h1, h2]
  · intro q h1 h2
    simp [totalHabError, jsTrimBlank, jsNumber, h1, not_le_of_lt h2]

/-- C5 witness: the priority rules applied at the values 3/2, -2 and 0. -/
theorem C5_validation_priority_witness :
    fieldError (.num (mkRat 3 2)) = "Debe ser entero." ∧
    fieldError (.num (-2)) = "No negativo." ∧
    totalHabError (.num 0) = "Debe ser mayor que 0." :=
  ⟨C5_validation_priority.2.2.1 (mkRat 3 2) (by decide),
    C5_validation_priority.2.2.2.1 (-2) (by decide) (by decide),
    C5_validation_priority.2.2.2.2.2.2.2.2.1 0 (by decide) (by decide)⟩

/-- Adding an entry with a fresh id succeeds and prepends it. -/
theorem idbAdd_of_fresh (store : List HistoryEntry) (e : HistoryEntry)
    (h : ¬ ∃ x ∈ store, x.id = e.id) : idbAdd store e = .ok (e :: store) := by
  unfold idbAdd
  rw [if_neg]
  intro hany
  obtain ⟨x, hx, hid⟩ := List.any_eq_true.mp hany
  exact h ⟨x, hx, of_decide_eq_true hid⟩

/-- Adding an entry whose id already exists fails with the duplicate-key
error. -/
theorem idbAdd_of_dup (store : List HistoryEntry) (e : HistoryEntry)
    (h : ∃ x ∈ store, x.id = e.id) :
    idbAdd store e = .error "ConstraintError" := by
  obtain ⟨x, hx, hid⟩ := h
  unfold idbAdd
  rw [if_pos]
  exact List.any_eq_true.mpr ⟨x, hx, decide_eq_true hid⟩

/-- C6: in the date-keyed variant, saving over an existing same-date id
is abandoned when the user declines and proceeds to an overwriting put
when the user confirms, and needs no confirmation when no duplicate
exists; in the timestamp-keyed variant the entry id is the creation
timestamp, the add fails with a duplicate-key error exactly when the id
already exists, and two entries with distinct ids on the same report
date can both be stored. -/
theorem C6_history_keying :
    (∀ (store : List HistoricalReport) (st : AppFormState) (a : String)
        (now : ℤ),
      ((∃ r ∈ store, r.id = st.reportDate) →
        handleSaveReport store st a now false = none) ∧
      (handleSaveReport store st a now true =
        some (idbPut store (buildReport st a now))) ∧
      ((¬ ∃ r ∈ store, r.id = st.reportDate) → ∀ b,
        handleSaveReport store st a now b =
          some (idbPut store (buildReport st a now)))) ∧
    (∀ (st : AppFormState) (now : ℤ), (buildHistoryEntry st now).id = now) ∧
    (∀ (store : List HistoryEntry) (e : HistoryEntry),
      ((∃ x ∈ store, x.id = e.id) →
        idbAdd store e = .error "ConstraintError") ∧
      ((¬ ∃ x ∈ store, x.id = e.id) → idbAdd store e = .ok (e :: store))) ∧
    (∀ (store : List HistoryEntry) (e1 e2 : HistoryEntry),
      e1.id ≠ e2.id → e1.date = e2.date →
      (¬ ∃ x ∈ store, x.id = e1.id) → (¬ ∃ x ∈ store, x.id = e2.id) →
      idbAdd store e1 = .ok (e1 :: store) ∧
      idbAdd (e1 :: store) e2 = .ok (e2 :: e1 :: store) ∧
      e1 ∈ (e2 :: e1 :: store) ∧ e2 ∈ (e2 :: e1 :: store)) := by
  refine ⟨fun store st a now => ⟨?_, ?_, ?_⟩, fun st now => rfl,
    fun store e => ⟨idbAdd_of_dup store e, idbAdd_of_fresh store e⟩,
    fun store e1 e2 h12 hdate h1 h2 => ?_⟩
  · rintro ⟨r, hr, hid⟩
    have hany : (store.any fun r => r.id = st.reportDate) = true :=
      List.any_eq_true.mpr ⟨r, hr, decide_eq_true hid⟩
    simp [handleSaveReport, hany]
  · simp [handleSaveReport]
  · intro h b
    have hany : (store.any fun r => r.id = st.reportDate) = false := by
      rw [List.any_eq_false]
      intro x hx
      simp only [decide_eq_true_eq]
      exact fun hid => h ⟨x, hx, hid⟩
    simp [handleSaveReport, hany]
  · have h2b : ¬ ∃ x ∈ e1 :: store, x.id = e2.id := by
      rintro ⟨x, hx, hid⟩
      rcases List.mem_cons.mp hx with rfl | hx2
      · exact h12 hid
      · exact h2 ⟨x, hx2, hid⟩
    exact ⟨idbAdd_of_fresh store e1 h1, idbAdd_of_fresh _ e2 h2b,
      List.mem_cons_of_mem _ (List.mem_cons_self _ _),
      List.mem_cons_self _ _⟩

/-- A concrete timestamp-keyed history entry built at time 1. -/
def histEntry1 : HistoryEntry := buildHistoryEntry scenarioState 1

/-- A concrete timestamp-keyed history entry built at time 2, same
report date as histEntry1. -/
def histEntry2 : HistoryEntry := buildHistoryEntry scenarioState 2

/-- C6 witness: a save into an empty date-keyed store needs no
confirmation, and two same-date timestamp-keyed entries are both
stored. -/
theorem C6_history_keying_witness :
    handleSaveReport [] scenarioState "" 5 false =
      some (idbPut [] (buildReport scenarioState "" 5)) ∧
    idbAdd [] histEntry1 = .ok [histEntry1] ∧
    idbAdd [histEntry1] histEntry2 = .ok [histEntry2, histEntry1] := by
  have h := C6_history_keying.2.2.2 [] histEntry1 histEntry2 (by decide) rfl
    (by rintro ⟨x, hx, -⟩; cases hx) (by rintro ⟨x, hx, -⟩; cases hx)
  exact ⟨(C6_history_keying.1 [] scenarioState "" 5).2.2
    (by rintro ⟨x, hx, -⟩; cases hx) false, h.1, h.2.1⟩

/-- C7: building a history entry captures a snapshot of the state: the
stored data, total, executive, date and results equal the state at build
time, and a later field update changes the live state but never the
value held inside the previously built entry. -/
theorem C7_snapshot_independence :
    ∀ (st : AppFormState) (c : SectionName) (f : FieldName) (v : RawValue)
      (a : String) (now : ℤ),
      (buildReport st a now).data = st.data ∧
      (buildReport st a now).totalHab = st.totalHab ∧
      (buildReport st a now).ejecutivoGuardia = st.ejecutivoGuardia ∧
      (buildReport st a now).reportDate = st.reportDate ∧
      (buildReport st a now).results = results st ∧
      (buildHistoryEntry st now).stateData = st.data ∧
      ((handleDataChange st c f v).data c).get f = v ∧
      (∀ c2, c2 ≠ c → (handleDataChange st c f v).data c2 = st.data c2) ∧
      (v ≠ (st.data c).get f →
        ((buildReport st a now).data c).get f ≠
          ((handleDataChange st c f v).data c).get f) := by
  intro st c f v a now
  have hget : ∀ s : OccupancySectionData, (s.set f v).get f = v := by
    intro s
    cases f <;> rfl
  refine ⟨rfl, rfl, rfl, rfl, rfl, rfl, ?_, ?_, ?_⟩
  · simp [handleDataChange, hget]
  · intro c2 hc2
    simp [handleDataChange, hc2]
  · intro hne
    have hlive : ((handleDataChange st c f v).data c).get f = v := by
      simp [handleDataChange, hget]
    rw [hlive]
    exact fun hcontra => hne (hcontra.symm)

/-- C7 witness: after changing the scenario salidas.hab field to 7, the
report built beforehand still holds the original 30. -/
theorem C7_snapshot_independence_witness :
    ((buildReport scenarioState "" 9).data .salidas).get .hab ≠
      ((handleDataChange scenarioState .salidas .hab (.num 7)).data
        .salidas).get .hab :=
  (C7_snapshot_independence scenarioState .salidas .hab (.num 7) "" 9).2.2.2.2.2.2.2.2
    (by decide)

/-- The sign with which a section enters the closing arithmetic. -/
def catSign : SectionName → ℤ
  | .salidas => -1
  | _ => 1

/-- C8: resetting a category zeroes its four fields, leaves every other
category unchanged, and removes exactly that category's signed
contribution from every closing total. -/
theorem C8_reset_category :
    ∀ (st : AppFormState) (c : SectionName) (f : FieldName),
      (handleResetSection st c).data c = zeroSection ∧
      parsedVal (handleResetSection st c) c f = 0 ∧
      (∀ c2, c2 ≠ c → (handleResetSection st c).data c2 = st.data c2) ∧
      cierreOf (parsedVal st) f =
        cierreOf (parsedVal (handleResetSection st c)) f +
          catSign c * parsedVal st c f := by
  intro st c f
  have hzero : ∀ f2 : FieldName, jsParseIntOr0 (zeroSection.get f2) = 0 := by
    intro f2
    cases f2 <;> decide
  have hval : ∀ c2, parsedVal (handleResetSection st c) c2 f =
      if c2 = c then 0 else parsedVal st c2 f := by
    intro c2
    by_cases h : c2 = c <;> simp [parsedVal, handleResetSection, h, hzero]
  refine ⟨by simp [handleResetSection], ?_, ?_, ?_⟩
  · rw [hval]
    simp
  · intro c2 hc2
    simp [handleResetSection, hc2]
  · cases c <;> simp [cierreOf, hval, catSign] <;> ring

/-- C8 witness: resetting salidas in the scenario leaves amanecimos
unchanged and restores exactly the salidas.hab contribution of 30. -/
theorem C8_reset_category_witness :
    (handleResetSection scenarioState .salidas).data .salidas = zeroSection ∧
    (handleResetSection scenarioState .salidas).data .amanecimos =
      scenarioState.data .amanecimos ∧
    cierreOf (parsedVal scenarioState) .hab =
      cierreOf (parsedVal (handleResetSection scenarioState .salidas)) .hab +
        catSign .salidas * parsedVal scenarioState .salidas .hab :=
  ⟨(C8_reset_category scenarioState .salidas .hab).1,
    (C8_reset_category scenarioState .salidas .hab).2.2.1 .amanecimos
      (by decide),
    (C8_reset_category scenarioState .salidas .hab).2.2.2⟩

/-- C9: deleting a history id that is not present is a no-op success: the
store delete succeeds leaving the store unchanged, the in-memory list is
unchanged, and the surfaced toast is not an error. -/
theorem C9_delete_absent_noop :
    ∀ (store history : List HistoryEntry) (id : ℤ),
      (¬ ∃ e ∈ store, e.id = id) → (¬ ∃ e ∈ history, e.id = id) →
      idbDelete store id = store ∧
      handleDeleteHistory store history id = (store, history, .success) ∧
      (ToastType.success ≠ ToastType.error) := by
  intro store history id h1 h2
  have hfilter : ∀ l : List HistoryEntry, (¬ ∃ e ∈ l, e.id = id) →
      (l.filter fun e => e.id ≠ id) = l := by
    intro l h
    rw [List.filter_eq_self]
    exact fun e he => decide_eq_true fun hid => h ⟨e, he, hid⟩
  refine ⟨hfilter store h1, ?_, by decide⟩
  simp only [handleDeleteHistory, idbDelete, hfilter store h1,
    hfilter history h2]

/-- C9 witness: deleting the absent id 99 from a one-entry store and
list changes nothing. -/
theorem C9_delete_absent_noop_witness :
    idbDelete [histEntry1] 99 = [histEntry1] ∧
    handleDeleteHistory [histEntry1] [histEntry1] 99 =
      ([histEntry1], [histEntry1], .success) := by
  have h : ¬ ∃ e ∈ [histEntry1], e.id = 99 := by
    rintro ⟨e, he, hid⟩
    rcases List.mem_singleton.mp he with rfl
    exact absurd hid (by decide)
  exact ⟨(C9_delete_absent_noop [histEntry1] [histEntry1] 99 h h).1,
    (C9_delete_absent_noop [histEntry1] [histEntry1] 99 h h).2.1⟩

/-- A state whose amanecimos.hab is the scientific string 1e1 (Number
10, parseInt 1) and whose salidas.hab is 9: every validation rule passes
(the Number values are the non-negative integers 10 and 9 and 9 is not
greater than 10), yet the closing arithmetic uses parseInt. -/
def sciState : AppFormState :=
  { totalHab := .num 148, ejecutivoGuardia := "", reportDate := "2026-10-11",
    data := mkData
      { hab := .sciNum 10 1, adultos := .num 0, ninos := .num 0,
        infantes := .num 0 }
      zeroSection
      { hab := .num 9, adultos := .num 0, ninos := .num 0,
        infantes := .num 0 }
      zeroSection zeroSection }

/-- C10: the claim fails on the code: with amanecimos.hab the scientific
string 1e1 the form is valid (validation compares Number values, 9 at
most 10), yet the closing rooms value is computed from parseInt values
as 1 - 9 = -8, a negative number on a valid form. -/
theorem C10_counterexample :
    isFormInvalid sciState = false ∧
    (results sciState).cierreHab = -8 := by
  constructor
  · decide
  · decide

/-- C10 (amended): whenever the validating variant's form is valid and
every category field's parseInt value agrees with its Number value (as
holds for plain decimal integer strings but not for scientific notation
such as 1e1), every computed closing value (rooms, adults, children,
infants and the guests total) is a non-negative integer. -/
theorem C10_closing_nonnegative :
    ∀ st : AppFormState, isFormInvalid st = false →
      (∀ c f, ∃ n : ℤ, jsParseInt ((st.data c).get f) = some n ∧
        jsNumber ((st.data c).get f) = some ((n : ℤ) : ℚ)) →
      0 ≤ (results st).cierreHab ∧ 0 ≤ (results st).cierreAdultos ∧
      0 ≤ (results st).cierreNinos ∧ 0 ≤ (results st).cierreInfantes ∧
      0 ≤ (results st).cierrePaxTotal := by
  intro st h hagree
  obtain ⟨-, herr⟩ := errors_empty_of_not_invalid st h
  have hfe : ∀ c f, fieldError ((st.data c).get f) = "" :=
    fun c f => fieldError_of_errData_empty st c f (herr c f)
  have key : ∀ c f, 0 ≤ parsedVal st c f ∧
      jsNumber ((st.data c).get f) = some ((parsedVal st c f : ℤ) : ℚ) := by
    intro c f
    obtain ⟨n, hp, hq⟩ := hagree c f
    obtain ⟨q, hjs, -, hden, hle⟩ := (fieldError_empty_iff _).mp (hfe c f)
    have hqn : q = (n : ℚ) := by
      rw [hjs] at hq
      exact Option.some.inj hq
    have hpv : parsedVal st c f = n := by
      simp [parsedVal, jsParseIntOr0, hp]
    rw [hpv]
    constructor
    · exact_mod_cast hqn ▸ hle
    · exact hq
  have hnn : ∀ c f, 0 ≤ parsedVal st c f := fun c f => (key c f).1
  have hsal : ∀ f, parsedVal st .salidas f ≤ parsedVal st .amanecimos f := by
    intro f
    have hg := not_gt_of_errData_salidas_empty st f (herr .salidas f)
    rw [(key .salidas f).2, (key .amanecimos f).2] at hg
    simp only [jsGtNum, decide_eq_false_iff_not, not_lt] at hg
    exact_mod_cast hg
  rw [results_of_valid st h]
  have hf : ∀ f, 0 ≤ cierreOf (parsedVal st) f := by
    intro f
    have h1 := hsal f
    have h2 := hnn .entradas f
    have h3 := hnn .usoCasa f
    have h4 := hnn .complementarias f
    simp only [cierreOf]
    linarith
  refine ⟨hf .hab, hf .adultos, hf .ninos, hf .infantes, ?_⟩
  have ha := hf .adultos
  have hn := hf .ninos
  have hi := hf .infantes
  simp only []
  linarith

/-- In the scenario state every field is a plain decimal integer string,
so parseInt and Number agree everywhere. -/
theorem scenario_agrees : ∀ c f, ∃ n : ℤ,
    jsParseInt ((scenarioState.data c).get f) = some n ∧
    jsNumber ((scenarioState.data c).get f) = some ((n : ℤ) : ℚ) := by
  intro c f
  obtain ⟨q, hv, hden⟩ :
      ∃ q, (scenarioState.data c).get f = .num q ∧ q.den = 1 := by
    cases c <;> cases f <;> exact ⟨_, rfl, by decide⟩
  rw [hv]
  exact num_int_agrees q hden

/-- C10 witness: the amended theorem applied at the valid scenario state,
whose fields are all plain decimal integer strings. -/
theorem C10_closing_nonnegative_witness :
    0 ≤ (results scenarioState).cierreHab ∧
    0 ≤ (results scenarioState).cierreAdultos ∧
    0 ≤ (results scenarioState).cierreNinos ∧
    0 ≤ (results scenarioState).cierreInfantes ∧
    0 ≤ (results scenarioState).cierrePaxTotal :=
  C10_closing_nonnegative scenarioState (by decide) scenario_agrees
